import Mathlib

/-!
Verification development for the executive-coach chat backend
(`src/server.js`).  The orchestration core is shallowly embedded:

* run statuses and the polling loop `waitForCompletion`;
* the concurrency guard `checkForActiveRuns`;
* the session registry `getOrCreateThread` (with its suspension point
  at the external thread-creation call modelled explicitly);
* the fingerprint resolver `generateUserFingerprint`;
* the profile memory writer `saveUserProfile`;
* the `/chat` and `/save-user-session` request handlers.

External network calls are modelled as oracles: a status trace
`statusAt : Nat → RunStatus` gives the result of the n-th run-status
retrieval, and `Except String` models thrown / caught JS exceptions.
-/

namespace Coach

/-- Status of an external run, as compared against string literals in
`server.js` (`queued`, `in_progress`, `requires_action`, `completed`,
`failed`; `failed` carries `last_error?.message`). -/
inductive RunStatus where
  | queued : RunStatus
  | in_progress : RunStatus
  | requires_action : RunStatus
  | completed : RunStatus
  | cancelled : RunStatus
  | expired : RunStatus
  | failed : Option String → RunStatus
deriving DecidableEq, Repr

/-- The `while` condition of `waitForCompletion`:
`run.status === 'queued' || run.status === 'in_progress'`. -/
def isPolling : RunStatus → Bool
  | RunStatus.queued => true
  | RunStatus.in_progress => true
  | _ => false

/-- Non-terminal statuses as listed in the guard `checkForActiveRuns`:
`in_progress`, `queued`, `requires_action`. -/
def isActiveStatus : RunStatus → Bool
  | RunStatus.in_progress => true
  | RunStatus.queued => true
  | RunStatus.requires_action => true
  | _ => false

/-- `const maxAttempts = 60` in `waitForCompletion`. -/
def maxAttempts : Nat := 60

/-- `throw new Error('Assistant response timed out')`. -/
def timeoutMsg : String := "Assistant response timed out"

/-- Message of the error thrown on a `failed` run:
`Assistant run failed: ${run.last_error?.message || 'Unknown error'}`. -/
def runFailedMsg (lastError : Option String) : String :=
  "Assistant run failed: " ++ lastError.getD "Unknown error"

/-- The polling loop of `waitForCompletion`.  `statusAt n` is the status
returned by the n-th `runs.retrieve` call (0-indexed); `attempts` is the
JS `attempts` counter, `fetches` the number of retrieve calls made so
far, `run` the most recently fetched status.  The JS condition
`attempts < maxAttempts` is carried as `fuel = maxAttempts - attempts`;
each iteration sleeps, retrieves once and increments `attempts`.
Returns the final `(attempts, fetches, run)`. -/
def pollAux (statusAt : Nat → RunStatus) :
    Nat → Nat → Nat → RunStatus → Nat × Nat × RunStatus
  | 0, attempts, fetches, run => (attempts, fetches, run)
  | fuel + 1, attempts, fetches, run =>
    if isPolling run then
      pollAux statusAt fuel (attempts + 1) (fetches + 1) (statusAt fetches)
    else
      (attempts, fetches, run)

/-- The whole polling phase of `waitForCompletion`: one initial
`runs.retrieve` (fetch number 0) followed by the loop. -/
def waitData (statusAt : Nat → RunStatus) : Nat × Nat × RunStatus :=
  pollAux statusAt maxAttempts 0 1 (statusAt 0)

/-- `waitForCompletion` (`server.js` lines 369-395): poll while the
status is `queued`/`in_progress` and `attempts < maxAttempts`; then
throw the timeout error if `attempts >= maxAttempts`, throw the
run-failed error if the status is `failed`, else return the run. -/
def waitForCompletion (statusAt : Nat → RunStatus) : Except String RunStatus :=
  if maxAttempts ≤ (waitData statusAt).1 then
    Except.error timeoutMsg
  else
    match (waitData statusAt).2.2 with
    | RunStatus.failed lastError => Except.error (runFailedMsg lastError)
    | s => Except.ok s

/-- One entry of `runs.data` in `checkForActiveRuns`. -/
structure RunInfo where
  id : String
  status : RunStatus
deriving DecidableEq, Repr

/-- `checkForActiveRuns` (`server.js` lines 398-419): list the runs of
the thread (`runsList`, an `Except` since the list call itself can
throw), look for the first run whose status is `in_progress`, `queued`
or `requires_action`, and if found wait for it with `waitForCompletion`
on its status trace `statusAt`.  Any thrown error is caught and the
function returns `false`; otherwise it returns `true`. -/
def checkForActiveRuns (runsList : Except String (List RunInfo))
    (statusAt : Nat → RunStatus) : Bool :=
  match runsList with
  | Except.error _ => false
  | Except.ok runs =>
    match runs.find? (fun r => isActiveStatus r.status) with
    | none => true
    | some _ =>
      match waitForCompletion statusAt with
      | Except.ok _ => true
      | Except.error _ => false

/-- On a trace that never leaves the polling statuses, the loop runs its
full fuel: attempts and fetches each grow by exactly `fuel`. -/
theorem pollAux_all_polling (statusAt : Nat → RunStatus)
    (h : ∀ n, isPolling (statusAt n) = true) :
    ∀ fuel attempts fetches run, isPolling run = true →
      (pollAux statusAt fuel attempts fetches run).1 = attempts + fuel ∧
      (pollAux statusAt fuel attempts fetches run).2.1 = fetches + fuel := by
  intro fuel
  induction fuel with
  | zero => intro attempts fetches run _; simp [pollAux]
  | succ f ih =>
    intro attempts fetches run hrun
    rw [pollAux, if_pos hrun]
    rcases ih (attempts + 1) (fetches + 1) (statusAt fetches) (h fetches) with ⟨h1, h2⟩
    constructor
    · rw [h1]; omega
    · rw [h2]; omega

/-- A status trace that answers `queued` to every retrieve. -/
def constQueued : Nat → RunStatus := fun _ => RunStatus.queued

/-- A status trace that answers `requires_action` to every retrieve. -/
def constReqAction : Nat → RunStatus := fun _ => RunStatus.requires_action

/-- A run list holding one `queued` run. -/
def queuedRuns : List RunInfo := [⟨"run_1", RunStatus.queued⟩]

/-- A run list holding one `requires_action` run. -/
def reqActionRuns : List RunInfo := [⟨"run_2", RunStatus.requires_action⟩]

/-- State of the session registry: the `userThreads` map (newest entry
first; lookup takes the first match, so prepending is overwrite), the
next thread id the external service will allocate, and the number of
external thread-creation calls made so far. -/
structure RegistryState where
  userThreads : List (String × Nat)
  nextThreadId : Nat
  creationCalls : Nat
deriving DecidableEq, Repr

/-- `userThreads.get(userId)` / `userThreads.has(userId)`. -/
def lookupThread (u : String) (s : RegistryState) : Option Nat :=
  (s.userThreads.find? (fun p => p.1 == u)).map (fun p => p.2)

/-- The external call `openai.beta.threads.create()` is issued: the
service allocates a fresh thread id and the call counter increases.
In the JS source this is an `await`, i.e. a suspension point: other
request handlers may run between `beginCreate` and `finishCreate`. -/
def beginCreate (s : RegistryState) : Nat × RegistryState :=
  (s.nextThreadId,
   { s with nextThreadId := s.nextThreadId + 1,
            creationCalls := s.creationCalls + 1 })

/-- The creation call resolves: `userThreads.set(userId, thread.id)`. -/
def finishCreate (u : String) (t : Nat) (s : RegistryState) : RegistryState :=
  { s with userThreads := (u, t) :: s.userThreads }

/-- `getOrCreateThread` (`server.js` lines 353-366) run to completion
with no interleaving: return the cached thread id if present, otherwise
create a thread, cache it and return it. -/
def getOrCreateThread (u : String) (s : RegistryState) : Nat × RegistryState :=
  match lookupThread u s with
  | some t => (t, s)
  | none =>
    let c := beginCreate s
    (c.1, finishCreate u c.1 c.2)

/-- Two calls to `getOrCreateThread` interleaved at the creation
suspension point, on the schedule: call 1 checks the cache, call 2
checks the cache, call 1 finishes creation and caches, call 2 finishes
creation and caches.  When either call hits the cache it returns at its
check and the other call proceeds alone.  Returns both returned thread
ids and the final state. -/
def interleavedTwoCalls (u1 u2 : String) (s0 : RegistryState) :
    Nat × Nat × RegistryState :=
  match lookupThread u1 s0 with
  | some t1 =>
    let r2 := getOrCreateThread u2 s0
    (t1, r2.1, r2.2)
  | none =>
    let c1 := beginCreate s0
    match lookupThread u2 c1.2 with
    | some t2 => (c1.1, t2, finishCreate u1 c1.1 c1.2)
    | none =>
      let c2 := beginCreate c1.2
      let s3 := finishCreate u1 c1.1 c2.2
      let s4 := finishCreate u2 c2.1 s3
      (c1.1, c2.1, s4)

/-- The registry state at process start: empty map, no calls made. -/
def emptyRegistry : RegistryState := ⟨[], 0, 0⟩

/-- A sample session identity. -/
def uSample : String := "user_abc123def456"

/-- Payload of a verified JWT: `{userId, email, fingerprint}` as signed
at registration/login. -/
structure TokenPayload where
  userId : String
  email : String
  fingerprint : String
deriving DecidableEq, Repr

/-- An inbound HTTP request, restricted to the fields the orchestration
core reads.  `tokenPayload` is the outcome of `jwt.verify` on the
attached bearer token (`none` means no valid token: verification
throws).  Absent or falsy-empty header/address values are `none`.
`body` stands for all request content irrelevant to fingerprinting. -/
structure Request where
  userAgent : Option String
  acceptLanguage : Option String
  acceptEncoding : Option String
  ip : Option String
  remoteAddress : Option String
  authHeader : Option String
  tokenPayload : Option TokenPayload
  body : String
deriving DecidableEq, Repr

/-- The empty string, the default for absent header/address values. -/
def emptyStr : String := ""

/-- `req.ip || req.connection.remoteAddress || ''`. -/
def effectiveIp (req : Request) : String :=
  req.ip.getD (req.remoteAddress.getD emptyStr)

/-- The string hashed for the anonymous fingerprint:
`userAgent + acceptLanguage + acceptEncoding + ip`, each defaulting to
the empty string. -/
def fingerprintSource (req : Request) : String :=
  (req.userAgent.getD emptyStr) ++ (req.acceptLanguage.getD emptyStr) ++
    (req.acceptEncoding.getD emptyStr) ++ effectiveIp req

/-- JS truthiness of an optional string (`if (userEmail)`): present and
non-empty. -/
def isTruthy : Option String → Bool
  | none => false
  | some s => !(s == emptyStr)

/-- `generateUserFingerprint` (`server.js` lines 133-157),
parameterized by the one-way hex hash `md5hex` (the `crypto` md5 of the
source): an email-keyed fingerprint for logged-in users, else a hash of
connection metadata; both are the first 12 hex chars prefixed with
`user_`. -/
def generateUserFingerprint (md5hex : String → String) (req : Request)
    (userEmail : Option String) : String :=
  if isTruthy userEmail then
    "user_" ++ (md5hex (userEmail.getD emptyStr)).take 12
  else
    "user_" ++ (md5hex (fingerprintSource req)).take 12

/-- One entry of `messages.data`: the author role and the content
parts (`content[0].text.value` is the head of `content`). -/
structure ChatMessage where
  role : String
  content : List String
deriving DecidableEq, Repr

/-- The remote assistant role string. -/
def roleAssistant : String := "assistant"

/-- `throw new Error('No assistant response found')`. -/
def noAssistantMsg : String := "No assistant response found"

/-- A JS `TypeError` from indexing an undefined value
(`messages.data[0]` on an empty list, `content[0]` on empty content). -/
def typeErrorMsg : String := "TypeError"

/-- The extraction step of the `/chat` success path (`server.js` lines
704-718): take `messages.data[0]` (the newest message), demand it is
assistant-authored, and return `content[0].text.value`; anything else
throws. -/
def extractChatResponse (msgs : List ChatMessage) : Except String String :=
  match msgs with
  | [] => Except.error typeErrorMsg
  | m :: _ =>
    if m.role == roleAssistant then
      match m.content.head? with
      | some t => Except.ok t
      | none => Except.error typeErrorMsg
    else
      Except.error noAssistantMsg

/-- Printable name of a status, for the non-completed error message. -/
def statusName : RunStatus → String
  | RunStatus.queued => "queued"
  | RunStatus.in_progress => "in_progress"
  | RunStatus.requires_action => "requires_action"
  | RunStatus.completed => "completed"
  | RunStatus.cancelled => "cancelled"
  | RunStatus.expired => "expired"
  | RunStatus.failed _ => "failed"

/-- `throw new Error(`Assistant run failed: ${completedRun.status}`)`. -/
def runFailedStatusMsg (run : RunStatus) : String :=
  "Assistant run failed: " ++ statusName run

/-- Outcomes of the external calls one `/chat` request makes, in call
order.  Each `Except.error` models that call throwing. -/
structure ChatUpstream where
  threadResult : Except String String
  runsList : Except String (List RunInfo)
  guardStatusAt : Nat → RunStatus
  appendMessage : Except String Unit
  createRun : Except String String
  statusAt : Nat → RunStatus
  messages : Except String (List ChatMessage)

/-- The upstream phase of the `/chat` handler body (`server.js` lines
665-722): resolve the thread, run the concurrency guard (its boolean
result is discarded and it never throws), append the user message,
create the run, wait for completion, and on a `completed` run extract
the newest message; a non-`completed` run throws. -/
def chatPipeline (up : ChatUpstream) : Except String String :=
  match up.threadResult with
  | Except.error e => Except.error e
  | Except.ok _ =>
    let _guard := checkForActiveRuns up.runsList up.guardStatusAt
    match up.appendMessage with
    | Except.error e => Except.error e
    | Except.ok _ =>
      match up.createRun with
      | Except.error e => Except.error e
      | Except.ok _ =>
        match waitForCompletion up.statusAt with
        | Except.error e => Except.error e
        | Except.ok run =>
          if run = RunStatus.completed then
            match up.messages with
            | Except.error e => Except.error e
            | Except.ok msgs => extractChatResponse msgs
          else
            Except.error (runFailedStatusMsg run)

/-- Body of a `/chat` HTTP response: either the success JSON
`{message, userId, authenticated}` or an error JSON `{error}`. -/
inductive ChatBody where
  | messageBody : String → String → Bool → ChatBody
  | errorBody : String → ChatBody
deriving DecidableEq, Repr

/-- An HTTP response: status code and body. -/
structure HttpResponse where
  status : Nat
  body : ChatBody
deriving DecidableEq, Repr

/-- `res.status(400).json({ error: 'Message is required' })`. -/
def missingMsgErr : String := "Message is required"

/-- The generic handler-boundary error body:
`res.status(500).json({ error: 'Something went wrong. Please try again.' })`. -/
def genericErr : String := "Something went wrong. Please try again."

/-- Identity resolution at the top of `/chat` (`server.js` lines
644-663): with no auth header, or a token that fails verification, fall
back to the anonymous fingerprint; a verified token yields its stored
fingerprint and email. -/
def resolveChatIdentity (md5hex : String → String) (req : Request) :
    String × Option String :=
  match req.authHeader with
  | none => (generateUserFingerprint md5hex req none, none)
  | some _ =>
    match req.tokenPayload with
    | some p => (p.fingerprint, some p.email)
    | none => (generateUserFingerprint md5hex req none, none)

/-- The `/chat` handler (`server.js` lines 635-730): reject a falsy
message with 400 before any external call; otherwise resolve the
identity, run the pipeline, and answer 200 with the extracted text (and
the identity and authentication flag) or map any thrown error to the
generic 500 body. -/
def chatHandler (md5hex : String → String) (req : Request) (message : String)
    (up : ChatUpstream) : HttpResponse :=
  if message == "" then
    ⟨400, ChatBody.errorBody missingMsgErr⟩
  else
    match chatPipeline up with
    | Except.ok t =>
      ⟨200, ChatBody.messageBody t (resolveChatIdentity md5hex req).1
        (resolveChatIdentity md5hex req).2.isSome⟩
    | Except.error _ => ⟨500, ChatBody.errorBody genericErr⟩

/-- State of the profile memory writer: the temporary files currently
present under `uploads/`, the `userProfiles` map (newest entry first;
lookup takes the first match, so prepending is overwrite), and the
number of external upload calls made. -/
structure ProfileState where
  tempFiles : List String
  profiles : List (String × String)
  uploadCalls : Nat
deriving DecidableEq, Repr

/-- `userProfiles.get(userId)`. -/
def lookupProfile (u : String) (s : ProfileState) : Option String :=
  (s.profiles.find? (fun p => p.1 == u)).map (fun p => p.2)

/-- `saveUserProfile` (`server.js` lines 178-243): write the rendered
profile to a temporary file, call the external upload (`upload` is its
outcome; the call is made in either case), and on success record the
returned file id in `userProfiles` and unlink the temporary file.  On
an upload failure the catch block logs and rethrows: the temporary file
is not unlinked and the map is untouched. -/
def saveUserProfile (userId tempName : String) (upload : Except String String)
    (s : ProfileState) : Except String String × ProfileState :=
  let s1 : ProfileState :=
    { s with tempFiles := tempName :: s.tempFiles,
             uploadCalls := s.uploadCalls + 1 }
  match upload with
  | Except.error e => (Except.error e, s1)
  | Except.ok fileId =>
    (Except.ok fileId,
     { s1 with profiles := (userId, fileId) :: s1.profiles,
               tempFiles := s1.tempFiles.erase tempName })

/-- The `/save-user-session` handler (`server.js` lines 841-872):
compute the identity with `generateUserFingerprint(req)` — the email
argument is always omitted, whatever bearer token the request carries —
then persist the profile under that identity.  Returns the identity
used, the outcome, and the final writer state. -/
def saveUserSessionHandler (md5hex : String → String) (req : Request)
    (tempName : String) (upload : Except String String) (s : ProfileState) :
    (String × Except String String) × ProfileState :=
  let userId := generateUserFingerprint md5hex req none
  let r := saveUserProfile userId tempName upload s
  ((userId, r.1), r.2)

/-- An empty profile-writer state. -/
def emptyProfileState : ProfileState := ⟨[], [], 0⟩

/-- Spec-side definition (from the spec sentence, for the C4 refinement
check): the text content of the latest message authored by the
assistant role in the newest-first message list, when one exists. -/
def specLatestAssistantText (msgsResult : Except String (List ChatMessage)) :
    Option String :=
  match msgsResult with
  | Except.error _ => none
  | Except.ok msgs =>
    match msgs.find? (fun x => x.role == roleAssistant) with
    | none => none
    | some m => m.content.head?

/-- A stand-in hash function for concrete witnesses (the development is
parametric in the hash). -/
def idHash : String → String := fun s => s

/-- A status trace that answers `completed` to every retrieve. -/
def constCompleted : Nat → RunStatus := fun _ => RunStatus.completed

/-- Sample header and payload strings for concrete witnesses. -/
def uaStr : String := "MozillaUA"

/-- Sample accept-language header. -/
def langStr : String := "en-US"

/-- Sample accept-encoding header. -/
def encStr : String := "gzip"

/-- Sample client address. -/
def ipStr : String := "10.0.0.1"

/-- Sample verified principal email. -/
def sampleEmail : String := "ceo@example.com"

/-- Sample authorization header value. -/
def bearerStr : String := "Bearer sometoken"

/-- Sample principal id. -/
def pidStr : String := "acct-1"

/-- Sample external handle and document names. -/
def threadStr : String := "thread_1"

/-- Sample run id. -/
def runStr : String := "run_9"

/-- Sample temporary profile file name. -/
def tmpStr : String := "uploads/temp_profile_u_1.txt"

/-- Second sample temporary profile file name. -/
def tmpStr2 : String := "uploads/temp_profile_u_2.txt"

/-- Sample uploaded document ids. -/
def fileStr1 : String := "file-AAA"

/-- Second sample document id. -/
def fileStr2 : String := "file-BBB"

/-- Sample upstream failure reason. -/
def boomStr : String := "upstream exploded"

/-- Sample user message. -/
def helloMsg : String := "I feel stuck"

/-- Sample assistant reply text. -/
def helloText : String := "Let us look at what stuck means."

/-- An anonymous request: metadata only, no bearer token. -/
def sampleAnonReq : Request :=
  { userAgent := some uaStr, acceptLanguage := some langStr,
    acceptEncoding := some encStr, ip := some ipStr, remoteAddress := none,
    authHeader := none, tokenPayload := none, body := emptyStr }

/-- The token payload of the sample registered user: its stored
fingerprint is email-derived, as at registration. -/
def samplePayload : TokenPayload :=
  ⟨pidStr, sampleEmail, generateUserFingerprint idHash sampleAnonReq (some sampleEmail)⟩

/-- The sample anonymous request carrying a verifiable bearer token. -/
def sampleAuthReq : Request :=
  { sampleAnonReq with authHeader := some bearerStr,
                       tokenPayload := some samplePayload }

/-- The sample request carrying an invalid/expired bearer token:
`jwt.verify` throws, so no payload. -/
def sampleBadTokenReq : Request :=
  { sampleAnonReq with authHeader := some bearerStr, tokenPayload := none }

/-- Upstream outcomes for a fully successful `/chat` request. -/
def sampleUp : ChatUpstream :=
  { threadResult := Except.ok threadStr, runsList := Except.ok [],
    guardStatusAt := constCompleted, appendMessage := Except.ok (),
    createRun := Except.ok runStr, statusAt := constCompleted,
    messages := Except.ok [⟨roleAssistant, [helloText]⟩] }

/-- Upstream outcomes where the run status stays `queued` past the
polling ceiling. -/
def timeoutUp : ChatUpstream :=
  { sampleUp with statusAt := constQueued }

/-- If the loop ends with the run still in a polling status, the fuel
was exhausted: the final attempts counter is `attempts + fuel`. -/
theorem pollAux_polling_final (statusAt : Nat → RunStatus) :
    ∀ fuel attempts fetches run,
      isPolling (pollAux statusAt fuel attempts fetches run).2.2 = true →
      (pollAux statusAt fuel attempts fetches run).1 = attempts + fuel := by
  intro fuel
  induction fuel with
  | zero => intro attempts fetches run _; simp [pollAux]
  | succ f ih =>
    intro attempts fetches run hfin
    by_cases hrun : isPolling run = true
    · rw [pollAux, if_pos hrun] at hfin ⊢
      rw [ih (attempts + 1) (fetches + 1) (statusAt fetches) hfin]
      omega
    · rw [pollAux, if_neg hrun] at hfin ⊢
      exact absurd hfin hrun

/-- On a trace that stays `queued`/`in_progress` forever, the polling
phase performs 60 attempts and 61 fetches, and `waitForCompletion`
throws the timeout error. -/
theorem wait_timeout_all_polling (statusAt : Nat → RunStatus)
    (h : ∀ n, isPolling (statusAt n) = true) :
    waitForCompletion statusAt = Except.error timeoutMsg ∧
    (waitData statusAt).2.1 = maxAttempts + 1 := by
  have hp := pollAux_all_polling statusAt h maxAttempts 0 1 (statusAt 0) (h 0)
  have h1 : (waitData statusAt).1 = maxAttempts := by
    unfold waitData; rw [hp.1]; omega
  have h2 : (waitData statusAt).2.1 = maxAttempts + 1 := by
    unfold waitData; rw [hp.2]; omega
  refine ⟨?_, h2⟩
  unfold waitForCompletion
  rw [h1]
  simp

/-- C1 counterexample: on the trace that is `queued` at every fetch,
`waitForCompletion` does terminate with the timeout error, but it
performs 61 status checks (one initial retrieve plus 60 in-loop
retrieves), not the 60 the claim states. -/
theorem C1_counterexample :
    waitForCompletion constQueued = Except.error timeoutMsg ∧
    (waitData constQueued).2.1 = 61 ∧ ¬ (waitData constQueued).2.1 = 60 := by
  refine ⟨rfl, by decide, by decide⟩

/-- C1 (amended): for every status trace that stays `queued` or
`in_progress` on every fetch, `waitForCompletion` terminates with the
timeout error `Assistant response timed out`, performing exactly
`maxAttempts + 1 = 61` status checks: the loop itself performs exactly
the ceiling (60) of them, after one initial retrieve. -/
theorem C1_wait_timeout (statusAt : Nat → RunStatus)
    (h : ∀ n, isPolling (statusAt n) = true) :
    waitForCompletion statusAt = Except.error timeoutMsg ∧
    (waitData statusAt).2.1 = maxAttempts + 1 :=
  wait_timeout_all_polling statusAt h

/-- C1 witness: the amended statement at the concrete all-`queued`
trace. -/
theorem C1_wait_timeout_witness :
    waitForCompletion constQueued = Except.error timeoutMsg ∧
    (waitData constQueued).2.1 = maxAttempts + 1 :=
  C1_wait_timeout constQueued (fun _ => rfl)

/-- C2 counterexample: with one `requires_action` (non-terminal) run on
the thread and a status trace that stays `requires_action` forever,
`checkForActiveRuns` returns (with `true`) even though the job never
reaches a terminal state: the last status it observed is still
non-terminal. -/
theorem C2_counterexample :
    checkForActiveRuns (Except.ok reqActionRuns) constReqAction = true ∧
    isActiveStatus (waitData constReqAction).2.2 = true := by
  refine ⟨rfl, by decide⟩

/-- C2 (amended): when the run list holds an active (non-terminal) run,
`checkForActiveRuns` waits only as long as the run's status is `queued`
or `in_progress` and the 60-attempt ceiling is not exhausted: if it
returns `true`, the last observed status had left `queued`/`in_progress`
(it may still be the non-terminal `requires_action`); and on a trace
that never leaves `queued`/`in_progress` it returns `false` after the
ceiling, with the job still non-terminal. -/
theorem C2_guard_waits (runsList : List RunInfo) (statusAt : Nat → RunStatus)
    (r : RunInfo)
    (hr : runsList.find? (fun x => isActiveStatus x.status) = some r) :
    (checkForActiveRuns (Except.ok runsList) statusAt = true →
      isPolling (waitData statusAt).2.2 = false) ∧
    ((∀ n, isPolling (statusAt n) = true) →
      checkForActiveRuns (Except.ok runsList) statusAt = false) := by
  constructor
  · intro htrue
    by_contra hpoll
    simp only [Bool.not_eq_false] at hpoll
    have hatt : (waitData statusAt).1 = maxAttempts := by
      unfold waitData at hpoll ⊢
      have := pollAux_polling_final statusAt maxAttempts 0 1 (statusAt 0) hpoll
      omega
    have hwc : waitForCompletion statusAt = Except.error timeoutMsg := by
      unfold waitForCompletion
      rw [hatt]
      simp
    rw [checkForActiveRuns, hr] at htrue
    rw [hwc] at htrue
    exact absurd htrue (by simp)
  · intro hall
    have hwc : waitForCompletion statusAt = Except.error timeoutMsg :=
      (wait_timeout_all_polling statusAt hall).1
    rw [checkForActiveRuns, hr, hwc]

/-- C2 witness: the amended statement at the concrete input of one
`queued` run and the all-`queued` status trace. -/
theorem C2_guard_waits_witness :
    checkForActiveRuns (Except.ok queuedRuns) constQueued = false :=
  (C2_guard_waits queuedRuns constQueued ⟨"run_1", RunStatus.queued⟩
    rfl).2 (fun _ => rfl)

/-- C3 counterexample: starting from the empty registry, two calls to
`getOrCreateThread` for the same identity that interleave at the
thread-creation suspension point (the `await` between the cache check
and `userThreads.set`) return two different thread ids and make two
external creation calls, violating the process-lifetime uniqueness
guarantee. -/
theorem C3_counterexample :
    ¬ (interleavedTwoCalls uSample uSample emptyRegistry).1 =
        (interleavedTwoCalls uSample uSample emptyRegistry).2.1 ∧
    (interleavedTwoCalls uSample uSample emptyRegistry).2.2.creationCalls = 2 := by
  refine ⟨by decide, by decide⟩

/-- C3 (amended): for sequential (non-overlapping) calls the claim
holds: called twice for an unmapped identity, `getOrCreateThread`
returns the same thread id both times and makes exactly one external
creation call, and once an identity is mapped every call returns the
cached context unchanged with no external call.  The uniqueness
guarantee fails only when two calls for the same identity interleave
across the creation suspension point (see the counterexample). -/
theorem C3_registry_sequential (u : String) (s : RegistryState)
    (h : lookupThread u s = none) :
    (getOrCreateThread u ((getOrCreateThread u s).2)).1 =
      (getOrCreateThread u s).1 ∧
    ((getOrCreateThread u ((getOrCreateThread u s).2)).2).creationCalls =
      s.creationCalls + 1 ∧
    (∀ t s2, lookupThread u s2 = some t → getOrCreateThread u s2 = (t, s2)) := by
  have h1 : getOrCreateThread u s =
      (s.nextThreadId, finishCreate u s.nextThreadId (beginCreate s).2) := by
    simp [getOrCreateThread, h, beginCreate]
  have hl : lookupThread u (finishCreate u s.nextThreadId (beginCreate s).2) =
      some s.nextThreadId := by
    simp [lookupThread, finishCreate]
  have h2 : getOrCreateThread u ((getOrCreateThread u s).2) =
      (s.nextThreadId, (getOrCreateThread u s).2) := by
    rw [h1]
    simp [getOrCreateThread, hl]
  refine ⟨?_, ?_, ?_⟩
  · rw [h2, h1]
  · rw [h2, h1]
    simp [finishCreate, beginCreate]
  · intro t s2 ht
    simp [getOrCreateThread, ht]

/-- C3 witness: the sequential amended statement at the empty
registry. -/
theorem C3_registry_sequential_witness :
    (getOrCreateThread uSample ((getOrCreateThread uSample emptyRegistry).2)).1 =
      (getOrCreateThread uSample emptyRegistry).1 ∧
    ((getOrCreateThread uSample
        ((getOrCreateThread uSample emptyRegistry).2)).2).creationCalls =
      emptyRegistry.creationCalls + 1 :=
  ⟨(C3_registry_sequential uSample emptyRegistry rfl).1,
   (C3_registry_sequential uSample emptyRegistry rfl).2.1⟩

/-- When the extraction step succeeds, the text it returns is the text
of the latest assistant-authored message of the newest-first list: the
head it reads is assistant-authored, hence also the first assistant
match. -/
theorem extract_ok_spec (msgs : List ChatMessage) (t : String)
    (h : extractChatResponse msgs = Except.ok t) :
    specLatestAssistantText (Except.ok msgs) = some t := by
  cases msgs with
  | nil => simp [extractChatResponse] at h
  | cons m rest =>
    by_cases hr : (m.role == roleAssistant) = true
    · simp only [extractChatResponse, hr, if_true] at h
      cases hh : m.content.head? with
      | none => rw [hh] at h; cases h
      | some t0 =>
        rw [hh] at h
        simp only [Except.ok.injEq] at h
        subst h
        simp [specLatestAssistantText, List.find?, hr, hh]
    · simp only [extractChatResponse, hr] at h
      simp at h

/-- A successful `/chat` pipeline run read its text out of a successful
message-list call via the extraction step. -/
theorem chatPipeline_ok (up : ChatUpstream) (t : String)
    (h : chatPipeline up = Except.ok t) :
    ∃ msgs, up.messages = Except.ok msgs ∧
      extractChatResponse msgs = Except.ok t := by
  unfold chatPipeline at h
  split at h
  · cases h
  · split at h
    · cases h
    · split at h
      · cases h
      · split at h
        · cases h
        · split at h
          · split at h
            · cases h
            · rename_i msgs hmsgs
              exact ⟨msgs, hmsgs, h⟩
          · cases h

/-- C4: for every `/chat` request answered 200 with a message text,
that text is the text content of the latest assistant-authored message
in the newest-first message list the handler fetched. -/
theorem C4_latest_assistant (md5hex : String → String) (req : Request)
    (message : String) (up : ChatUpstream) (t uid : String) (auth : Bool)
    (h : chatHandler md5hex req message up =
      ⟨200, ChatBody.messageBody t uid auth⟩) :
    specLatestAssistantText up.messages = some t := by
  unfold chatHandler at h
  split at h
  · simp at h
  · split at h
    · rename_i t0 hpipe
      simp only [HttpResponse.mk.injEq, ChatBody.messageBody.injEq] at h
      obtain ⟨-, ht, -, -⟩ := h
      subst ht
      obtain ⟨msgs, hm, he⟩ := chatPipeline_ok up t0 hpipe
      rw [hm]
      exact extract_ok_spec msgs t0 he
    · simp at h

/-- C4 witness: the statement at a concrete successful chat exchange. -/
theorem C4_latest_assistant_witness :
    specLatestAssistantText sampleUp.messages = some helloText :=
  C4_latest_assistant idHash sampleAnonReq helloMsg sampleUp helloText
    (generateUserFingerprint idHash sampleAnonReq none) false rfl

/-- C5: a `/chat` request carrying a bearer token that fails
verification, with a non-empty message, is not aborted: the identity
degrades to the anonymous metadata fingerprint (no email), and the
response status is 200 or 500 — never 401. -/
theorem C5_auth_fallback (md5hex : String → String) (req : Request)
    (message : String) (up : ChatUpstream) (hdr : String)
    (hauth : req.authHeader = some hdr) (htok : req.tokenPayload = none)
    (hmsg : ¬ message = "") :
    resolveChatIdentity md5hex req =
      (generateUserFingerprint md5hex req none, none) ∧
    ¬ (chatHandler md5hex req message up).status = 401 ∧
    ((chatHandler md5hex req message up).status = 200 ∨
      (chatHandler md5hex req message up).status = 500) := by
  have hid : resolveChatIdentity md5hex req =
      (generateUserFingerprint md5hex req none, none) := by
    rw [resolveChatIdentity, hauth, htok]
  have hm : (message == "") = false := by
    simp [hmsg]
  refine ⟨hid, ?_, ?_⟩ <;>
    · rw [chatHandler, hm]
      cases hp : chatPipeline up <;> simp

/-- C5 witness: the statement at a concrete request with an invalid
token and non-empty message. -/
theorem C5_auth_fallback_witness :
    resolveChatIdentity idHash sampleBadTokenReq =
      (generateUserFingerprint idHash sampleBadTokenReq none, none) ∧
    ¬ (chatHandler idHash sampleBadTokenReq helloMsg sampleUp).status = 401 ∧
    ((chatHandler idHash sampleBadTokenReq helloMsg sampleUp).status = 200 ∨
      (chatHandler idHash sampleBadTokenReq helloMsg sampleUp).status = 500) :=
  C5_auth_fallback idHash sampleBadTokenReq helloMsg sampleUp bearerStr
    rfl rfl (by decide)

/-- C6: for every `/chat` request with a non-empty message in which the
upstream pipeline throws — thread creation, message append, run
creation, the polling timeout, a `failed` terminal run, or any other
step — the response is exactly `500` with the constant body
`Something went wrong. Please try again.`: the body is the same
whatever the thrown error `e` was, so no upstream text reaches the
caller. -/
theorem C6_generic_500 (md5hex : String → String) (req : Request)
    (message : String) (up : ChatUpstream) (e : String)
    (hmsg : ¬ message = "") (hp : chatPipeline up = Except.error e) :
    chatHandler md5hex req message up = ⟨500, ChatBody.errorBody genericErr⟩ := by
  have hm : (message == "") = false := by
    simp [hmsg]
  rw [chatHandler, hm, hp]
  simp

/-- C6 witness: the statement at the spec's end-to-end scenario — the
run status stays `queued` for more polls than the ceiling, the pipeline
throws the timeout error, and the response is the generic 500. -/
theorem C6_generic_500_witness :
    chatHandler idHash sampleAnonReq helloMsg timeoutUp =
      ⟨500, ChatBody.errorBody genericErr⟩ :=
  C6_generic_500 idHash sampleAnonReq helloMsg timeoutUp timeoutMsg
    (by decide) rfl

/-- Requests agreeing on user-agent, accept-language, accept-encoding
and effective IP hash the same anonymous source string. -/
theorem fingerprintSource_congr (r1 r2 : Request)
    (hua : r1.userAgent = r2.userAgent)
    (hl : r1.acceptLanguage = r2.acceptLanguage)
    (he : r1.acceptEncoding = r2.acceptEncoding)
    (hip : effectiveIp r1 = effectiveIp r2) :
    fingerprintSource r1 = fingerprintSource r2 := by
  unfold fingerprintSource
  rw [hua, hl, he, hip]

/-- C7: the fingerprint resolver is a pure, deterministic function of
the inputs it reads.  For a non-empty verified email the resulting
SessionIdentity is the same whatever the two requests were; with no
email, two requests with identical connection metadata (user-agent,
accept-language, accept-encoding, effective IP) resolve to the same
SessionIdentity even when every other request field differs. -/
theorem C7_fingerprint_pure (md5hex : String → String) (r1 r2 : Request)
    (email : String) (hemail : ¬ email = "") :
    generateUserFingerprint md5hex r1 (some email) =
      generateUserFingerprint md5hex r2 (some email) ∧
    (r1.userAgent = r2.userAgent → r1.acceptLanguage = r2.acceptLanguage →
      r1.acceptEncoding = r2.acceptEncoding → effectiveIp r1 = effectiveIp r2 →
      generateUserFingerprint md5hex r1 none =
        generateUserFingerprint md5hex r2 none) := by
  constructor
  · simp [generateUserFingerprint, isTruthy, emptyStr, hemail]
  · intro hua hl he hip
    have hsrc := fingerprintSource_congr r1 r2 hua hl he hip
    simp [generateUserFingerprint, isTruthy, hsrc]

/-- C7 witness: the statement at concrete requests differing in their
auth and body fields but agreeing on connection metadata. -/
theorem C7_fingerprint_pure_witness :
    generateUserFingerprint idHash sampleAnonReq (some sampleEmail) =
      generateUserFingerprint idHash sampleAuthReq (some sampleEmail) ∧
    generateUserFingerprint idHash sampleAnonReq none =
      generateUserFingerprint idHash sampleAuthReq none :=
  ⟨(C7_fingerprint_pure idHash sampleAnonReq sampleAuthReq sampleEmail
      (by decide)).1,
   (C7_fingerprint_pure idHash sampleAnonReq sampleAuthReq sampleEmail
      (by decide)).2 rfl rfl rfl rfl⟩

/-- C8: two successful `saveUserProfile` calls for the same identity
make two external upload calls, and the identity→document mapping
afterwards holds only the second DocumentId (the first is
overwritten). -/
theorem C8_profile_overwrite (u n1 n2 f1 f2 : String) (s : ProfileState)
    (hne : ¬ f1 = f2) :
    lookupProfile u (saveUserProfile u n2 (Except.ok f2)
        ((saveUserProfile u n1 (Except.ok f1) s).2)).2 = some f2 ∧
    ¬ lookupProfile u (saveUserProfile u n2 (Except.ok f2)
        ((saveUserProfile u n1 (Except.ok f1) s).2)).2 = some f1 ∧
    (saveUserProfile u n2 (Except.ok f2)
        ((saveUserProfile u n1 (Except.ok f1) s).2)).2.uploadCalls =
      s.uploadCalls + 2 := by
  have hl : lookupProfile u (saveUserProfile u n2 (Except.ok f2)
      ((saveUserProfile u n1 (Except.ok f1) s).2)).2 = some f2 := by
    simp [saveUserProfile, lookupProfile, List.find?]
  refine ⟨hl, ?_, ?_⟩
  · rw [hl]
    intro hcontra
    exact hne (Option.some.inj hcontra).symm
  · simp [saveUserProfile]

/-- C8 witness: the statement at a concrete state and two concrete
uploads. -/
theorem C8_profile_overwrite_witness :
    lookupProfile uSample (saveUserProfile uSample tmpStr2 (Except.ok fileStr2)
        ((saveUserProfile uSample tmpStr (Except.ok fileStr1)
          emptyProfileState).2)).2 = some fileStr2 ∧
    ¬ lookupProfile uSample (saveUserProfile uSample tmpStr2 (Except.ok fileStr2)
        ((saveUserProfile uSample tmpStr (Except.ok fileStr1)
          emptyProfileState).2)).2 = some fileStr1 ∧
    (saveUserProfile uSample tmpStr2 (Except.ok fileStr2)
        ((saveUserProfile uSample tmpStr (Except.ok fileStr1)
          emptyProfileState).2)).2.uploadCalls =
      emptyProfileState.uploadCalls + 2 :=
  C8_profile_overwrite uSample tmpStr tmpStr2 fileStr1 fileStr2
    emptyProfileState (by decide)

/-- C9 counterexample: on a failing upload from the empty state, the
temporary profile file written during construction is still present
afterwards — the failure path does not clean it up, contrary to the
claim that it is deleted on both paths. -/
theorem C9_counterexample :
    (saveUserProfile uSample tmpStr (Except.error boomStr)
        emptyProfileState).2.tempFiles = [tmpStr] ∧
    tmpStr ∈ (saveUserProfile uSample tmpStr (Except.error boomStr)
        emptyProfileState).2.tempFiles := by
  refine ⟨by decide, by decide⟩

/-- C9 (amended): an upload failure propagates to the caller unchanged
and the identity→document mapping is untouched, and on the success path
the temporary file is cleaned up (the file set returns to what it was);
but on the failure path the temporary file is left behind. -/
theorem C9_failure_paths (u n e f : String) (s : ProfileState) :
    (saveUserProfile u n (Except.error e) s).1 = Except.error e ∧
    (saveUserProfile u n (Except.error e) s).2.profiles = s.profiles ∧
    n ∈ (saveUserProfile u n (Except.error e) s).2.tempFiles ∧
    (saveUserProfile u n (Except.ok f) s).2.tempFiles = s.tempFiles := by
  refine ⟨rfl, rfl, ?_, ?_⟩
  · simp [saveUserProfile]
  · simp [saveUserProfile]

/-- C10: `/save-user-session` always records the DocumentId under the
anonymous metadata fingerprint — `generateUserFingerprint(req)` is
called without the email argument — even when the request carries a
valid bearer token whose stored fingerprint is email-derived.  Under
the no-hash-collision hypothesis `hdist`, the identity used is
therefore different from the authenticated identity the same caller
gets on `/chat`, and it is invariant under changing only the auth
fields of the request. -/
theorem C10_save_session_anonymous (md5hex : String → String) (r1 r2 : Request)
    (tempName f : String) (s : ProfileState) (p : TokenPayload)
    (_htp : r1.tokenPayload = some p)
    (hfp : p.fingerprint = generateUserFingerprint md5hex r1 (some p.email))
    (hdist : ¬ generateUserFingerprint md5hex r1 (some p.email) =
        generateUserFingerprint md5hex r1 none)
    (hua : r1.userAgent = r2.userAgent)
    (hl : r1.acceptLanguage = r2.acceptLanguage)
    (he : r1.acceptEncoding = r2.acceptEncoding)
    (hip : effectiveIp r1 = effectiveIp r2) :
    (saveUserSessionHandler md5hex r1 tempName (Except.ok f) s).1.1 =
      generateUserFingerprint md5hex r1 none ∧
    (saveUserSessionHandler md5hex r1 tempName (Except.ok f) s).1.1 =
      (saveUserSessionHandler md5hex r2 tempName (Except.ok f) s).1.1 ∧
    ¬ (saveUserSessionHandler md5hex r1 tempName (Except.ok f) s).1.1 =
        p.fingerprint ∧
    lookupProfile (generateUserFingerprint md5hex r1 none)
      (saveUserSessionHandler md5hex r1 tempName (Except.ok f) s).2 =
      some f := by
  have h1 : (saveUserSessionHandler md5hex r1 tempName (Except.ok f) s).1.1 =
      generateUserFingerprint md5hex r1 none := rfl
  have hsrc := fingerprintSource_congr r1 r2 hua hl he hip
  have hanon : generateUserFingerprint md5hex r1 none =
      generateUserFingerprint md5hex r2 none := by
    simp [generateUserFingerprint, isTruthy, hsrc]
  refine ⟨h1, ?_, ?_, ?_⟩
  · rw [h1, hanon]
    rfl
  · rw [h1]
    intro hcontra
    exact hdist (hfp.symm.trans hcontra.symm)
  · simp [saveUserSessionHandler, saveUserProfile, lookupProfile, List.find?]

/-- C10 witness: the statement at a concrete authenticated request,
with the second request carrying the same metadata and no token. -/
theorem C10_save_session_anonymous_witness :
    (saveUserSessionHandler idHash sampleAuthReq tmpStr (Except.ok fileStr1)
        emptyProfileState).1.1 =
      generateUserFingerprint idHash sampleAuthReq none ∧
    (saveUserSessionHandler idHash sampleAuthReq tmpStr (Except.ok fileStr1)
        emptyProfileState).1.1 =
      (saveUserSessionHandler idHash sampleAnonReq tmpStr (Except.ok fileStr1)
        emptyProfileState).1.1 ∧
    ¬ (saveUserSessionHandler idHash sampleAuthReq tmpStr (Except.ok fileStr1)
        emptyProfileState).1.1 = samplePayload.fingerprint ∧
    lookupProfile (generateUserFingerprint idHash sampleAuthReq none)
      (saveUserSessionHandler idHash sampleAuthReq tmpStr (Except.ok fileStr1)
        emptyProfileState).2 = some fileStr1 :=
  C10_save_session_anonymous idHash sampleAuthReq sampleAnonReq tmpStr fileStr1
    emptyProfileState samplePayload rfl rfl (by decide) rfl rfl rfl rfl

end Coach
